import Mathlib

/-!
Shallow embedding of the simulation core of the "wraith" 2D action game
(player, golem, boss, spell and camera managers plus the per-tick update
and collision/damage resolution), translated from the JavaScript sources.

Conventions of the embedding:
* JS numbers are modelled as exact rationals (`ℚ`); quantities that are
  provably integer-valued in the source (health, damage, score, mana,
  cast ids) are modelled as `ℤ`, and tick counters/timers that the source
  clamps at zero with `Math.max(0, t - 1)` as `ℕ` (whose truncated
  subtraction implements exactly that clamp).
* String-valued animation tags become inductive enumerations with the
  constructor names of the source strings.
* Fields that a given JS record never defines (and which therefore read
  as `undefined`, i.e. falsy) are represented explicitly by their falsy
  value, noted at the definition site.
* Namespaces mirror the JS classes owning each method.
-/

/-- Animation tag of a golem (`currentAnimation` strings of golem.js). -/
inductive GolemAnim
  | idle
  | walking
  | attacking
  | hurt
  | dying
  deriving DecidableEq

/-- Animation tag of the boss (`currentAnimation` strings of boss.js). -/
inductive BossAnim
  | idle
  | meleeAttack
  | magicFire
  | magicLightning
  | hurt
  | dead
  deriving DecidableEq

/-- Animation tag of the player (`currentAnimation` strings of the wraith modules). -/
inductive PlayerAnim
  | idle
  | walking
  | jumping
  | casting
  | castingUltimate
  | hurt
  | dying
  | idleBlink
  deriving DecidableEq

/-- Phase of an ultimate lightning strike (`lightningPhase` strings of
spellUpdater.js); `none`-valued via `Option` on spells that never define it. -/
inductive LightningPhase
  | hovering
  | striking
  deriving DecidableEq

/-- A golem record, as built by `GolemSystem.createGolemData`. -/
structure Golem where
  x : ℚ
  y : ℚ
  width : ℚ
  height : ℚ
  velocityY : ℚ
  health : ℤ
  maxHealth : ℤ
  damage : ℤ
  currentAnimation : GolemAnim
  currentFrame : ℕ
  frameCount : ℚ
  isDying : Bool
  isHurt : Bool
  isAttacking : Bool
  hurtTimer : ℕ
  attackTimer : ℕ
  dyingFrame : ℕ
  attackCooldown : ℕ
  facingRight : Bool
  hasDealtDamage : Bool
  isElite : Bool
  lastUltimateHit : ℤ
  potionDropped : Bool
  deriving DecidableEq

/-- The player record, as built by `WraithSystem.createPlayerObject`. -/
structure Player where
  x : ℚ
  y : ℚ
  width : ℚ
  height : ℚ
  hitboxWidth : ℚ
  hitboxHeight : ℚ
  velocityX : ℚ
  velocityY : ℚ
  speed : ℚ
  jumpPower : ℚ
  isGrounded : Bool
  gravity : ℚ
  health : ℤ
  maxHealth : ℤ
  facingRight : Bool
  currentAnimation : PlayerAnim
  currentFrame : ℕ
  frameCount : ℚ
  idleTimer : ℕ
  idleThreshold : ℕ
  isCasting : Bool
  castingFrame : ℕ
  castingDuration : ℕ
  castingProgress : ℕ
  mana : ℤ
  maxMana : ℤ
  ultimateReady : Bool
  isCastingUltimate : Bool
  ultimateCastingFrame : ℕ
  ultimateCastingDuration : ℕ
  manaPotions : ℕ
  isHurt : Bool
  isDying : Bool
  hurtTimer : ℕ
  dyingFrame : ℕ
  dyingStartTime : ℚ
  isJumping : Bool
  jumpFrame : ℕ
  sSkillDamage : ℤ
  hasMoved : Bool
  isBlinking : Bool
  blinkFrame : ℕ
  idleBlinkTimer : ℕ
  idleBlinkThreshold : ℕ
  showDamageIncrease : Bool
  damageIncreaseTimer : ℕ
  damageIncreaseDuration : ℕ
  oldDamage : ℤ
  newDamage : ℤ
  ultimateDamage : ℤ
  ultimateCastCount : ℕ
  showUltimateDamageIncrease : Bool
  ultimateDamageIncreaseTimer : ℕ
  ultimateDamageIncreaseDuration : ℕ
  oldUltimateDamage : ℤ
  newUltimateDamage : ℤ

/-- The boss record, as built by `BossSystem.createBoss`.  The fields
`lastUltimateHit`, `dyingFrame`, `frameCount`, `deathAnimationTimer` and
`deathAnimationFinished` are not initialised by `createBoss` (they read as
`undefined` until first written); they are represented by their falsy
values, with `lastUltimateHit := -1` mirroring the golem's "never hit"
sentinel (the live cast ids compared against it are always ≥ 1). -/
structure Boss where
  x : ℚ
  y : ℚ
  width : ℚ
  height : ℚ
  spriteWidth : ℚ
  spriteHeight : ℚ
  health : ℤ
  maxHealth : ℤ
  attackDamage : ℤ
  meleeRange : ℚ
  rangedRange : ℚ
  attackCooldown : ℕ
  magicAttackCooldown : ℕ
  isAttacking : Bool
  isMagicAttacking : Bool
  isLightningAttacking : Bool
  isHurt : Bool
  isDead : Bool
  currentAnimation : BossAnim
  facingRight : Bool
  idleTime : ℕ
  maxIdleTime : ℕ
  hurtTimer : ℤ
  meleeAttackTimer : ℕ
  magicAttackTimer : ℕ
  lightningAttackTimer : ℕ
  magicFireSoundPlayed : Bool
  lastUltimateHit : ℤ
  dyingFrame : ℕ
  frameCount : ℚ
  deathAnimationTimer : ℕ
  deathAnimationFinished : Bool

/-- A player spell record (normal bolt or ultimate lightning), covering the
fields built by `SpellCaster.createNormalSpellData`, `createGolemLightning`
and `createBossLightning`.  Boolean tags absent from a given record kind are
`false`; `lightningPhase` is `none` on normal bolts. -/
structure Spell where
  x : ℚ
  y : ℚ
  width : ℚ
  height : ℚ
  velocityX : ℚ
  velocityY : ℚ
  lifetime : ℤ
  damage : ℤ
  isExploding : Bool
  currentFrame : ℕ
  frameCount : ℚ
  isUltimate : Bool
  isLightning : Bool
  isGolemLightning : Bool
  isBossLightning : Bool
  hasHit : Bool
  lightningPhase : Option LightningPhase
  strikeDelay : ℤ
  alpha : ℚ
  targetX : ℚ
  targetY : ℚ
  zIndex : ℕ
  deriving DecidableEq

/-- An axis-aligned collision rectangle, as produced by the hitbox helpers
of collision.js. -/
structure Hitbox where
  x : ℚ
  y : ℚ
  width : ℚ
  height : ℚ
  deriving DecidableEq

/-- The camera record of `CameraSystem`. -/
structure Camera where
  x : ℚ
  y : ℚ
  width : ℚ
  height : ℚ
  followSpeed : ℚ
  targetX : ℚ
  velocityX : ℚ
  acceleration : ℚ
  maxSpeed : ℚ
  friction : ℚ
  lastUpdateTime : ℚ
  deltaTime : ℚ
  deriving DecidableEq

namespace BossSystem

/-- Embeds `BossSystem.createBoss` (boss.js); `height` is the game height (720). -/
def createBoss (height : ℚ) : Boss :=
  { x := 100
    y := height / 2 + 20
    width := 100
    height := 200
    spriteWidth := 225
    spriteHeight := 300
    health := 1000
    maxHealth := 1000
    attackDamage := 20
    meleeRange := 120
    rangedRange := 850
    attackCooldown := 0
    magicAttackCooldown := 0
    isAttacking := false
    isMagicAttacking := false
    isLightningAttacking := false
    isHurt := false
    isDead := false
    currentAnimation := BossAnim.idle
    facingRight := true
    idleTime := 0
    maxIdleTime := 60
    hurtTimer := 0
    meleeAttackTimer := 0
    magicAttackTimer := 0
    lightningAttackTimer := 0
    magicFireSoundPlayed := false
    lastUltimateHit := -1
    dyingFrame := 0
    frameCount := 0
    deathAnimationTimer := 0
    deathAnimationFinished := false }

/-- The `healthThresholds` array of `BossSystem.takeDamage`. -/
def healthThresholds : List ℤ := [1000, 750, 500, 250]

/-- Embeds `BossSystem.takeDamage` (boss.js): subtract the damage, then flash the
hurt animation exactly when some threshold satisfies
`post ≤ threshold < post + damage` (`post + damage` being the pre-damage
health).  A dead boss ignores damage. -/
def takeDamage (damage : ℤ) (b : Boss) : Boss :=
  if b.isDead then b
  else
    let health' := b.health - damage
    let shouldPlayHurtAnimation :=
      healthThresholds.any fun threshold =>
        decide (health' ≤ threshold) && decide (health' + damage > threshold)
    if shouldPlayHurtAnimation then
      { b with health := health', isHurt := true, hurtTimer := 30,
               currentAnimation := BossAnim.hurt }
    else
      { b with health := health' }

end BossSystem

namespace GolemSystem

/-- Embeds `GolemSystem.createGolemData` (golem.js): the full golem record built at
spawn time; `hp` is the configured base HP (90 normal/bonus, 150 elite) and
`mult` the current `golemHPMultiplier`.  `y = 670 - 120 = 550` comes from
`calculateGolemPosition`. -/
def createGolemData (mult : ℚ) (hp : ℚ) (isElite : Bool) (x : ℚ) : Golem :=
  { x := x
    y := 550
    width := 120
    height := 120
    velocityY := 0
    health := ⌊hp * mult⌋
    maxHealth := ⌊hp * mult⌋
    damage := 20
    currentAnimation := GolemAnim.idle
    currentFrame := 0
    frameCount := 0
    isDying := false
    isHurt := false
    isAttacking := false
    hurtTimer := 0
    attackTimer := 0
    dyingFrame := 0
    attackCooldown := 0
    facingRight := true
    hasDealtDamage := false
    isElite := isElite
    lastUltimateHit := -1
    potionDropped := false }

/-- One golem created by `createGolem('bonus')`: base HP 90, distance
`300 + r·200` for a random draw `r ∈ [0,1)`, spawned left or right of the
player according to the random side draw. -/
def createBonusGolem (mult : ℚ) (playerX : ℚ) (draw : ℚ × Bool) : Golem :=
  let distance := 300 + draw.1 * 200
  createGolemData mult 90 false (playerX + (if draw.2 then -distance else distance))

/-- Embeds `GolemSystem.spawnBonusGolems` (golem.js): appends `count` bonus golems;
`draws` supplies the random draws of `getGolemConfig`/`calculateGolemPosition`. -/
def spawnBonusGolems (mult : ℚ) (playerX : ℚ) (draws : ℕ → ℚ × Bool)
    (count : ℕ) (gs : List Golem) : List Golem :=
  gs ++ (List.range count).map (fun i => createBonusGolem mult playerX (draws i))

/-- Embeds `GolemSystem.updateGolemTimers` (golem.js): `Math.max(0, t - 1)` on the
hurt, attack and cooldown timers (truncated `ℕ` subtraction). -/
def updateGolemTimers (g : Golem) : Golem :=
  { g with hurtTimer := g.hurtTimer - 1
           attackTimer := g.attackTimer - 1
           attackCooldown := g.attackCooldown - 1 }

/-- Embeds `GolemSystem.handleGolemDeath` (golem.js): at `health ≤ 0` on a not yet
dying golem, set `isDying`, reset `dyingFrame`, switch the animation to
`dying` and award +100 score. -/
def handleGolemDeath (score : ℤ) (g : Golem) : ℤ × Golem :=
  if g.health ≤ 0 ∧ g.isDying = false then
    (score + 100,
     { g with isDying := true, dyingFrame := 0, currentAnimation := GolemAnim.dying })
  else (score, g)

/-- Embeds `GolemSystem.handleEliteGolemDeath` (golem.js): one-shot potion drop flag
of an elite golem (the potion-system side effect itself is external to the
golem state). -/
def handleEliteGolemDeath (g : Golem) : Golem :=
  if g.isElite = true ∧ g.potionDropped = false then { g with potionDropped := true } else g

/-- Embeds `GolemSystem.updateDyingGolem` (golem.js): advance `frameCount` by 0.5;
on reaching 1 advance `dyingFrame`, and at `dyingFrame ≥ 15` pin it to 14,
run the elite drop and set the health sentinel `-1`. -/
def updateDyingGolem (g : Golem) : Golem :=
  let fc := g.frameCount + 1/2
  if fc ≥ 1 then
    let g := { g with dyingFrame := g.dyingFrame + 1, frameCount := 0 }
    if g.dyingFrame ≥ 15 then
      let g := handleEliteGolemDeath { g with dyingFrame := 14 }
      { g with health := -1 }
    else g
  else { g with frameCount := fc }

/-- Embeds `GolemSystem.handleHurtGolem` (golem.js). -/
def handleHurtGolem (g : Golem) : Golem :=
  let g := { g with currentAnimation := GolemAnim.hurt }
  if g.hurtTimer ≤ 0 then
    { g with isHurt := false, currentAnimation := GolemAnim.idle }
  else g

/-- Embeds `GolemSystem.handleGolemAttack` (golem.js): start a swing when in range,
off cooldown and not already attacking (timer 20, cooldown 72, damage latch
cleared). -/
def handleGolemAttack (g : Golem) (isInRange : Bool) : Golem :=
  if isInRange = true ∧ g.attackCooldown ≤ 0 ∧ g.isAttacking = false then
    { g with isAttacking := true, attackTimer := 20, attackCooldown := 72,
             hasDealtDamage := false }
  else g

/-- Embeds `GolemSystem.handleGolemMovement` (golem.js). -/
def handleGolemMovement (playerX : ℚ) (g : Golem) (distanceToPlayer : ℚ)
    (isInRange : Bool) : Golem :=
  if g.isAttacking then { g with currentAnimation := GolemAnim.attacking }
  else if isInRange then { g with currentAnimation := GolemAnim.idle }
  else if distanceToPlayer > 60 then
    { g with x := g.x + (if playerX > g.x then 1 else -1) * (3/2),
             currentAnimation := GolemAnim.walking }
  else { g with currentAnimation := GolemAnim.idle }

/-- Embeds `GolemSystem.finishGolemAttack` (golem.js). -/
def finishGolemAttack (g : Golem) : Golem :=
  if g.isAttacking = true ∧ g.attackTimer ≤ 0 then
    { g with isAttacking := false, currentAnimation := GolemAnim.idle,
             currentFrame := 0, frameCount := 0 }
  else g

/-- Embeds `GolemSystem.handleActiveGolem` (golem.js): facing, range test (60 units)
and the attack/movement/finish sequence. -/
def handleActiveGolem (playerX : ℚ) (g : Golem) : Golem :=
  let distanceToPlayer := |playerX - g.x|
  let g := { g with facingRight := decide (playerX > g.x) }
  let isInRange := decide (distanceToPlayer < 60)
  finishGolemAttack
    (handleGolemMovement playerX (handleGolemAttack g isInRange) distanceToPlayer isInRange)

/-- Embeds `GolemSystem.updateGolemBehavior` (golem.js). -/
def updateGolemBehavior (playerX : ℚ) (g : Golem) : Golem :=
  if g.isHurt then handleHurtGolem g else handleActiveGolem playerX g

/-- Embeds `GolemSystem.updateGolemPhysics` (golem.js): gravity 0.3 and the floor
clamp at the ground line 670. -/
def updateGolemPhysics (g : Golem) : Golem :=
  let vy := g.velocityY + 3/10
  let y := g.y + vy
  if y + g.height ≥ 670 then { g with y := 670 - g.height, velocityY := 0 }
  else { g with y := y, velocityY := vy }

/-- Embeds `GolemSystem.updateGolemAnimation` (golem.js). -/
def updateGolemAnimation (g : Golem) : Golem :=
  let speed : ℚ :=
    if g.currentAnimation = GolemAnim.walking then 6/10
    else if g.isAttacking then 9/10 else 8/10
  let fc := g.frameCount + speed
  if fc ≥ 1 then
    { g with currentFrame :=
               if g.currentAnimation ≠ GolemAnim.dying then (g.currentFrame + 1) % 12
               else g.currentFrame
             frameCount := 0 }
  else { g with frameCount := fc }

/-- The per-golem body of the `forEach` inside `GolemSystem.updateGolems`:
timers, death check (threading the score), then either the dying playback or
the behaviour/physics/animation sequence. -/
def updateGolemStep (playerX : ℚ) (score : ℤ) (g : Golem) : ℤ × Golem :=
  let d := handleGolemDeath score (updateGolemTimers g)
  if d.2.isDying then (d.1, updateDyingGolem d.2)
  else (d.1, updateGolemAnimation (updateGolemPhysics (updateGolemBehavior playerX d.2)))

/-- The `forEach` of `GolemSystem.updateGolems`: every golem stepped in list
order, the score threaded through. -/
def updateGolemsList (playerX : ℚ) : ℤ → List Golem → ℤ × List Golem
  | score, [] => (score, [])
  | score, g :: rest =>
      let step := updateGolemStep playerX score g
      let tail := updateGolemsList playerX step.1 rest
      (tail.1, step.2 :: tail.2)

/-- Embeds `GolemSystem.updateGolems` (golem.js): step every golem, then drop the
golems whose health reached the `-1` sentinel (the trailing
`filter(golem => golem.health !== -1)` of the same method). -/
def updateGolems (playerX : ℚ) (score : ℤ) (gs : List Golem) : ℤ × List Golem :=
  let r := updateGolemsList playerX score gs
  (r.1, r.2.filter fun g => g.health ≠ -1)

/-- The per-golem body of `GolemSystem.increaseGolemHP` (golem.js), applied
with the already-raised multiplier `mult`: living golems get
`newMaxHP = ⌊baseHP · mult⌋` (150 elite / 90 otherwise) and
`newHP = ⌊newMaxHP · oldHP/oldMaxHP⌋`; dead or dying golems (health ≤ 0)
are untouched. -/
def rescaleGolem (mult : ℚ) (g : Golem) : Golem :=
  if g.health > 0 then
    let originalMaxHP : ℚ := if g.isElite then 150 else 90
    let newMaxHP : ℤ := ⌊originalMaxHP * mult⌋
    let hpFraction : ℚ := (g.health : ℚ) / (g.maxHealth : ℚ)
    { g with health := ⌊(newMaxHP : ℚ) * hpFraction⌋, maxHealth := newMaxHP }
  else g

/-- Embeds `GolemSystem.increaseGolemHP` (golem.js): raise the global multiplier by
0.25 capped at 2.0 and rescale every living golem with it. -/
def increaseGolemHP (mult : ℚ) (gs : List Golem) : ℚ × List Golem :=
  let mult' := min (mult + 1/4) 2
  (mult', gs.map (rescaleGolem mult'))

end GolemSystem

namespace GameUpdater

/-- Embeds `GameUpdater.updateScoreAndCleanup` (gameUpdater.js): the end-of-tick
filter that awards +100 for every golem found at the `-1` health sentinel
and drops it from the live list (kept golems stay in order). -/
def updateScoreAndCleanup (score : ℤ) (gs : List Golem) : ℤ × List Golem :=
  gs.foldr
    (fun g acc => if g.health = -1 then (acc.1 + 100, acc.2) else (acc.1, g :: acc.2))
    (score, [])

/-- One invocation of `GolemSystem.updateGolems` on the golem/score
sub-state, as a step function for iteration. -/
def golemTick (playerX : ℚ) (st : ℤ × List Golem) : ℤ × List Golem :=
  GolemSystem.updateGolems playerX st.1 st.2

/-- One main-loop tick of `GameUpdater.update` restricted to the golem/score
sub-state: `updateGolems` (inside `updateGameSystems`) followed by
`updateScoreAndCleanup`.  The phases in between (spells, collisions,
spawning) are the identity on this sub-state when no spells are in flight,
no golem attack lands and the spawn gates are closed, which is the situation
of the death scenarios below. -/
def mainTick (playerX : ℚ) (st : ℤ × List Golem) : ℤ × List Golem :=
  let r := GolemSystem.updateGolems playerX st.1 st.2
  updateScoreAndCleanup r.1 r.2

end GameUpdater

namespace WraithDrawing

/-- Embeds `WraithDrawing.getWraithHitbox` (wraithDrawing.js): the player's hit
rectangle, centred in the sprite bounds with the record's
`hitboxWidth`/`hitboxHeight` (30×40 on the created player, both nonzero so
the `|| 30` / `|| 40` fallbacks never fire). -/
def getWraithHitbox (p : Player) : Hitbox :=
  { x := p.x + (p.width - p.hitboxWidth) / 2
    y := p.y + (p.height - p.hitboxHeight) / 2
    width := p.hitboxWidth
    height := p.hitboxHeight }

end WraithDrawing

namespace CollisionSystem

/-- Embeds `CollisionSystem.checkHitboxCollision` (collision.js): strict
axis-aligned rectangle overlap. -/
def checkHitboxCollision (h1 h2 : Hitbox) : Bool :=
  decide (h1.x < h2.x + h2.width) && decide (h1.x + h1.width > h2.x) &&
  decide (h1.y < h2.y + h2.height) && decide (h1.y + h1.height > h2.y)

/-- Embeds `CollisionSystem.getObjectHitbox` (collision.js) applied to a golem
record: golem records carry neither a `type` tag nor
`hitboxWidth`/`hitboxHeight` fields, so both guarded branches fall through
and the hitbox is the full sprite bounds. -/
def getObjectHitboxGolem (g : Golem) : Hitbox :=
  { x := g.x, y := g.y, width := g.width, height := g.height }

/-- Embeds `CollisionSystem.damagePlayer` (collision.js): flag hurt, 30-tick hurt
timer, subtract the damage. -/
def damagePlayer (damage : ℤ) (p : Player) : Player :=
  { p with isHurt := true, hurtTimer := 30, health := p.health - damage }

/-- The per-golem body of `CollisionSystem.checkGolemPlayerCollisions`
(collision.js): overlap of the wraith hitbox with the golem bounds, the
active swing window `isAttacking ∧ 0 < attackTimer ≤ 5`, the grounded
requirement and the `hasDealtDamage` one-shot latch; the latch is cleared
whenever the overlap or the swing window fails. -/
def golemPlayerStep (p : Player) (g : Golem) : Player × Golem :=
  let wraithHitbox := WraithDrawing.getWraithHitbox p
  let golemHitbox := getObjectHitboxGolem g
  let collision := checkHitboxCollision wraithHitbox golemHitbox
  let isWraithGrounded := p.isGrounded
  let isGolemAttacking :=
    g.isAttacking && decide (g.attackTimer > 0) && decide (g.attackTimer ≤ 5)
  let (p, g) :=
    if collision && isGolemAttacking && !g.hasDealtDamage && isWraithGrounded then
      (damagePlayer 20 p, { g with hasDealtDamage := true })
    else (p, g)
  let g := if !collision || !isGolemAttacking then { g with hasDealtDamage := false } else g
  (p, g)

/-- The effect of `CollisionSystem.handleSpellGolemHit` (collision.js) on
the directly hit golem and on the score/mana accumulators (the spell-state
bookkeeping, explosion transition and splash propagation act on other
state).  For an ultimate lightning spell neither the damage branch nor the
`isBossLightning` branch touches the golem. -/
def spellGolemHitGolem (sp : Spell) (score mana : ℤ) (g : Golem) : ℤ × ℤ × Golem :=
  if sp.isLightning = false ∨ sp.isUltimate = false then
    let oldHealth := g.health
    let g := { g with health := g.health - sp.damage }
    let (score, mana) :=
      if g.health ≤ 0 ∧ oldHealth > 0 then (score + 10, min 100 (mana + 5))
      else (score, mana)
    let g := if g.health > 0 then { g with isHurt := true, hurtTimer := 15 } else g
    (score, mana, g)
  else (score, mana, g)

/-- The effect of `CollisionSystem.handleSpellBossHit` (collision.js) on the
boss: only the non-(ultimate lightning) branch calls
`BossSystem.takeDamage`; an ultimate lightning spell at most marks itself
`hasHit` and leaves the boss alone. -/
def spellBossHitBoss (sp : Spell) (b : Boss) : Boss :=
  if sp.isLightning = false ∨ sp.isUltimate = false then BossSystem.takeDamage sp.damage b
  else b

end CollisionSystem

namespace SpellCaster

/-- Embeds `SpellCaster.damageGolemWithUltimate` (spellUpdater.js): subtract the
player's ultimate damage, stamp the cast id, and flag hurt (20-tick timer)
if the golem survives. -/
def damageGolemWithUltimate (ultimateDamage castId : ℤ) (g : Golem) : Golem :=
  let g := { g with health := g.health - ultimateDamage, lastUltimateHit := castId }
  if g.health > 0 then { g with isHurt := true, hurtTimer := 20 } else g

/-- Embeds `SpellCaster.createGolemLightning` (spellUpdater.js); `ultimateDamage`
is the player's current ultimate damage, the duration constant is
`ultimateLightningDuration = 96`. -/
def createGolemLightning (ultimateDamage : ℤ) (g : Golem) : Spell :=
  { x := g.x + g.width / 2 - 75
    y := g.y - 20
    width := 150
    height := 150
    velocityX := 0
    velocityY := 0
    lifetime := 96
    damage := ultimateDamage
    isExploding := false
    currentFrame := 0
    frameCount := 0
    isUltimate := true
    isLightning := true
    isGolemLightning := true
    isBossLightning := false
    hasHit := false
    lightningPhase := some LightningPhase.hovering
    strikeDelay := 20
    alpha := 1
    targetX := g.x + g.width / 2
    targetY := g.y - 20
    zIndex := 0 }

/-- The `forEach` core of `SpellCaster.hitGolemsWithUltimate`
(spellUpdater.js): every golem within `spellRange` of the player whose
`lastUltimateHit` differs from the current cast id is damaged and stamped,
and one lightning strike is created over it (on the just-damaged record, as
in the source where both calls see the same mutated object). -/
def hitGolemsList (ultimateDamage castId : ℤ) (wraithX spellRange : ℚ) :
    List Golem → List Golem × List Spell
  | [] => ([], [])
  | g :: rest =>
      let tail := hitGolemsList ultimateDamage castId wraithX spellRange rest
      if |g.x - wraithX| ≤ spellRange ∧ g.lastUltimateHit ≠ castId then
        let g' := damageGolemWithUltimate ultimateDamage castId g
        (g' :: tail.1, createGolemLightning ultimateDamage g' :: tail.2)
      else (g :: tail.1, tail.2)

/-- Embeds `SpellCaster.hitGolemsWithUltimate` (spellUpdater.js): inside the boss
room no golem is targeted at all. -/
def hitGolemsWithUltimate (ultimateDamage castId : ℤ) (wraithX spellRange : ℚ)
    (inBossRoom : Bool) (gs : List Golem) : List Golem × List Spell :=
  if inBossRoom then (gs, [])
  else hitGolemsList ultimateDamage castId wraithX spellRange gs

/-- Embeds `SpellCaster.damageBossWithUltimate` (spellUpdater.js). -/
def damageBossWithUltimate (ultimateDamage castId : ℤ) (b : Boss) : Boss :=
  let b := { b with health := b.health - ultimateDamage, lastUltimateHit := castId }
  if b.health > 0 then { b with isHurt := true, hurtTimer := 20 } else b

/-- Embeds `SpellCaster.createBossLightning` (spellUpdater.js). -/
def createBossLightning (ultimateDamage : ℤ) (b : Boss) : Spell :=
  { x := 200
    y := b.y + 50
    width := 150
    height := 100
    velocityX := 0
    velocityY := 0
    lifetime := 96
    damage := ultimateDamage
    isExploding := false
    currentFrame := 0
    frameCount := 0
    isUltimate := true
    isLightning := true
    isGolemLightning := false
    isBossLightning := true
    hasHit := false
    lightningPhase := some LightningPhase.hovering
    strikeDelay := 20
    alpha := 1
    targetX := 200
    targetY := b.y + 50
    zIndex := 1000 }

/-- Embeds `SpellCaster.hitBossWithUltimate` (spellUpdater.js): nothing outside the
boss room or without a boss; otherwise damage-and-stamp unless the boss
already carries the current cast id. -/
def hitBossWithUltimate (ultimateDamage castId : ℤ) (inBossRoom : Bool) :
    Option Boss → Option Boss × List Spell
  | none => (none, [])
  | some b =>
      if inBossRoom = false then (some b, [])
      else if b.lastUltimateHit = castId then (some b, [])
      else
        let b' := damageBossWithUltimate ultimateDamage castId b
        (some b', [createBossLightning ultimateDamage b'])

end SpellCaster

namespace WraithSystem

/-- Embeds `WraithSystem.createPlayerObject` (the wraith system module): the fresh
player record of a new game session. -/
def createPlayerObject : Player :=
  { x := 100
    y := 250
    width := 96
    height := 96
    hitboxWidth := 30
    hitboxHeight := 40
    velocityX := 0
    velocityY := 0
    speed := 4
    jumpPower := 12
    isGrounded := false
    gravity := 1/2
    health := 100
    maxHealth := 100
    facingRight := true
    currentAnimation := PlayerAnim.idle
    currentFrame := 0
    frameCount := 0
    idleTimer := 0
    idleThreshold := 120
    isCasting := false
    castingFrame := 0
    castingDuration := 18
    castingProgress := 0
    mana := 0
    maxMana := 100
    ultimateReady := false
    isCastingUltimate := false
    ultimateCastingFrame := 0
    ultimateCastingDuration := 6
    manaPotions := 0
    isHurt := false
    isDying := false
    hurtTimer := 0
    dyingFrame := 0
    dyingStartTime := 0
    isJumping := false
    jumpFrame := 0
    sSkillDamage := 30
    hasMoved := false
    isBlinking := false
    blinkFrame := 0
    idleBlinkTimer := 0
    idleBlinkThreshold := 180
    showDamageIncrease := false
    damageIncreaseTimer := 0
    damageIncreaseDuration := 150
    oldDamage := 0
    newDamage := 0
    ultimateDamage := 100
    ultimateCastCount := 0
    showUltimateDamageIncrease := false
    ultimateDamageIncreaseTimer := 0
    ultimateDamageIncreaseDuration := 150
    oldUltimateDamage := 0
    newUltimateDamage := 0 }

end WraithSystem

/-- The slice of the `Game` instance touched by an ultimate cast: the
player, the golem manager's list / spawn interval / HP multiplier, the
optional boss, the boss-room flag, the global score, the monotone
`ultimateCastId` and the live spell list. -/
structure GameState where
  player : Player
  golems : List Golem
  golemSpawnInterval : ℕ
  golemHPMultiplier : ℚ
  boss : Option Boss
  inBossRoom : Bool
  score : ℤ
  ultimateCastId : ℤ
  spells : List Spell

namespace SpellCaster

/-- Embeds `SpellCaster.castUltimateSpell` (spellUpdater.js): strike every valid
golem target (range 550 around the player, outside the boss room) and the
boss (inside the boss room), append the created lightning spells, and add
the flat +2500 score — unconditionally, whether or not any target was
struck. -/
def castUltimateSpell (s : GameState) : GameState :=
  let wraithX := s.player.x
  let spellRange : ℚ := 550
  let golemResult :=
    hitGolemsWithUltimate s.player.ultimateDamage s.ultimateCastId wraithX spellRange
      s.inBossRoom s.golems
  let bossResult :=
    hitBossWithUltimate s.player.ultimateDamage s.ultimateCastId s.inBossRoom s.boss
  { s with golems := golemResult.1
           boss := bossResult.1
           score := s.score + 2500
           spells := s.spells ++ golemResult.2 ++ bossResult.2 }

end SpellCaster

namespace WraithAnimation

/-- Embeds `WraithAnimation.updateSpawnInterval` (the wraith animation module):
2000 → 1750 → 1500, and 1500 for any other current value. -/
def updateSpawnInterval (currentInterval : ℕ) : ℕ :=
  if currentInterval = 2000 then 1750
  else if currentInterval = 1750 then 1500
  else 1500

/-- Embeds `WraithAnimation.finishUltimateCasting` (the wraith animation module),
in the source's call order: reset mana/readiness, bump the cast counter,
+15 `sSkillDamage`, every 5th cast +100 `ultimateDamage`, ratchet the golem
spawn interval, spawn three bonus golems, raise the golem HP multiplier
(rescaling the list, bonus golems included), issue a fresh cast id, cast
the ultimate spell, and leave the ultimate-casting state.  `draws` supplies
the random draws of the bonus spawns. -/
def finishUltimateCasting (draws : ℕ → ℚ × Bool) (s : GameState) : GameState :=
  let p := { s.player with mana := 0, ultimateReady := false }
  let p := { p with ultimateCastCount := p.ultimateCastCount + 1 }
  let p := { p with oldDamage := p.sSkillDamage
                    sSkillDamage := p.sSkillDamage + 15
                    newDamage := p.sSkillDamage + 15
                    showDamageIncrease := true
                    damageIncreaseTimer := 0 }
  let p :=
    if p.ultimateCastCount % 5 = 0 then
      { p with oldUltimateDamage := p.ultimateDamage
               ultimateDamage := p.ultimateDamage + 100
               newUltimateDamage := p.ultimateDamage + 100
               showUltimateDamageIncrease := true
               ultimateDamageIncreaseTimer := 0 }
    else p
  let interval := updateSpawnInterval s.golemSpawnInterval
  let golems := GolemSystem.spawnBonusGolems s.golemHPMultiplier p.x draws 3 s.golems
  let hpResult := GolemSystem.increaseGolemHP s.golemHPMultiplier golems
  let castId := s.ultimateCastId + 1
  let s' := SpellCaster.castUltimateSpell
    { s with player := p, golems := hpResult.2, golemSpawnInterval := interval,
             golemHPMultiplier := hpResult.1, ultimateCastId := castId }
  { s' with player := { s'.player with isCastingUltimate := false
                                       currentAnimation := PlayerAnim.idle
                                       ultimateCastingFrame := 0 } }

end WraithAnimation

namespace BossAttacks

/-- Embeds `BossAttacks.startMeleeAttack` (the boss attacks module): flag the
attack, switch to the melee animation, arm the 180-tick cooldown and zero
the windup timer. -/
def startMeleeAttack (b : Boss) : Boss :=
  { b with isAttacking := true, currentAnimation := BossAnim.meleeAttack,
           attackCooldown := 180, meleeAttackTimer := 0 }

/-- Embeds `BossAttacks.damagePlayer` (the boss attacks module): subtract the
boss's attack damage and, if the player survives, flag hurt with a 30-tick
timer. -/
def damagePlayer (attackDamage : ℤ) (p : Player) : Player :=
  let p := { p with health := p.health - attackDamage }
  if p.health > 0 then { p with isHurt := true, hurtTimer := 30 } else p

/-- Embeds `BossAttacks.executeMeleeAttack` (the boss attacks module): the damage
check of the swing, run against the player's distance at that very moment;
out-of-range or dead-boss swings do nothing. -/
def executeMeleeAttack (playerX : ℚ) (b : Boss) (p : Player) : Player :=
  if b.isDead then p
  else if |playerX - b.x| ≤ b.meleeRange then damagePlayer b.attackDamage p
  else p

/-- Embeds `BossAttacks.startMagicAttack` (the boss attacks module). -/
def startMagicAttack (b : Boss) : Boss :=
  { b with isMagicAttacking := true, currentAnimation := BossAnim.magicFire,
           magicAttackCooldown := 240, magicAttackTimer := 0,
           magicFireSoundPlayed := false }

end BossAttacks

namespace BossAI

/-- Embeds `BossAI.checkAttackConditions` (the boss AI module): melee when within
melee range with the melee cooldown elapsed, otherwise a magic attack when
within the ranged band with the magic cooldown elapsed. -/
def checkAttackConditions (playerX : ℚ) (b : Boss) : Boss :=
  let distanceToPlayer := |playerX - b.x|
  if distanceToPlayer ≤ b.meleeRange ∧ b.attackCooldown ≤ 0 then
    BossAttacks.startMeleeAttack b
  else if distanceToPlayer > b.meleeRange ∧ distanceToPlayer ≤ b.rangedRange ∧
          b.magicAttackCooldown ≤ 0 then
    BossAttacks.startMagicAttack b
  else b

end BossAI

namespace BossState

/-- Embeds `BossState.updateMeleeAttack` (bossAnimation.js): while attacking the
windup timer advances; the damage check `executeMeleeAttack` runs exactly
when the timer reaches 20, and at 21 the attack ends. -/
def updateMeleeAttack (playerX : ℚ) (b : Boss) (p : Player) : Boss × Player :=
  if b.isAttacking then
    let t := b.meleeAttackTimer + 1
    let b := { b with meleeAttackTimer := t }
    let p := if t = 20 then BossAttacks.executeMeleeAttack playerX b p else p
    if t ≥ 21 then
      ({ b with isAttacking := false, currentAnimation := BossAnim.idle,
                meleeAttackTimer := 0 }, p)
    else (b, p)
  else (b, p)

end BossState

namespace CameraSystem

/-- Embeds `CameraSystem.handleBossRoomCamera` (the camera module): pin the camera
to the origin with zero velocity. -/
def handleBossRoomCamera (c : Camera) : Camera :=
  { c with x := 0, velocityX := 0 }

/-- Embeds `CameraSystem.updateDeltaTime` (the camera module): the elapsed real
time since the last update, normalised to 60fps frames (÷ 16.67) and
clamped at 2. -/
def updateDeltaTime (now : ℚ) (c : Camera) : Camera :=
  { c with deltaTime := min ((now - c.lastUpdateTime) / (1667/100)) 2,
           lastUpdateTime := now }

/-- Embeds `CameraSystem.updateCameraTarget` (the camera module). -/
def updateCameraTarget (playerX : ℚ) (c : Camera) : Camera :=
  { c with targetX := playerX - c.width / 2 }

/-- Embeds `CameraSystem.calculateTargetVelocity` (the camera module): the desired
velocity, tapered within 150 units of the target and clamped to
`±maxSpeed`. -/
def calculateTargetVelocity (c : Camera) (distance : ℚ) : ℚ :=
  let targetVelocity := distance * c.followSpeed * c.deltaTime
  let speedMultiplier := min 1 (|distance| / 150)
  let targetVelocity := targetVelocity * speedMultiplier
  max (-c.maxSpeed) (min c.maxSpeed targetVelocity)

/-- Embeds `CameraSystem.updateCameraMovement` (the camera module).  `qpow` stands
for the real-valued `Math.pow` used for the frame-rate-independent friction
decay `friction ^ deltaTime`; every property proved below holds for an
arbitrary such function. -/
def updateCameraMovement (qpow : ℚ → ℚ → ℚ) (c : Camera) : Camera :=
  let distance := c.targetX - c.x
  let targetVelocity := calculateTargetVelocity c distance
  let v := c.velocityX + (targetVelocity - c.velocityX) * c.acceleration * c.deltaTime
  let v := v * qpow c.friction c.deltaTime
  { c with velocityX := v, x := c.x + v * c.deltaTime }

/-- Embeds `CameraSystem.applyMicroSmoothing` (the camera module): residual errors
below 0.05 units collapse straight to the target with zero velocity. -/
def applyMicroSmoothing (c : Camera) : Camera :=
  if |c.targetX - c.x| < 1/20 then { c with x := c.targetX, velocityX := 0 } else c

/-- Embeds `CameraSystem.updateCamera` (the camera module): boss-room pinning, or
the delta-time / target / movement / micro-smoothing pipeline. -/
def updateCamera (qpow : ℚ → ℚ → ℚ) (now playerX : ℚ) (inBossRoom : Bool)
    (c : Camera) : Camera :=
  if inBossRoom then handleBossRoomCamera c
  else applyMicroSmoothing (updateCameraMovement qpow (updateCameraTarget playerX
    (updateDeltaTime now c)))

end CameraSystem

/-- Claim C10: every completed ultimate cast unconditionally adds 2500 to the
score, regardless of whether any golem or the boss is in range or hit by the
cast. -/
theorem castUltimateSpell_adds_flat_2500 (s : GameState) (draws : ℕ → ℚ × Bool) :
    (SpellCaster.castUltimateSpell s).score = s.score + 2500 ∧
    (WraithAnimation.finishUltimateCasting draws s).score = s.score + 2500 :=
  ⟨rfl, rfl⟩

/-- The hurt-flash behaviour of `BossSystem.takeDamage` claimed by C4: the
flash (isHurt, 30-tick timer, hurt animation) happens precisely when some
threshold in {1000, 750, 500, 250} separates the post-damage health from the
pre-damage health; otherwise only the health changes. -/
def bossHurtFlashSpec (damage : ℤ) (b : Boss) : Prop :=
  ((∃ t ∈ BossSystem.healthThresholds, b.health - damage ≤ t ∧ b.health > t) →
      BossSystem.takeDamage damage b =
        { b with health := b.health - damage, isHurt := true, hurtTimer := 30,
                 currentAnimation := BossAnim.hurt }) ∧
  ((¬ ∃ t ∈ BossSystem.healthThresholds, b.health - damage ≤ t ∧ b.health > t) →
      BossSystem.takeDamage damage b = { b with health := b.health - damage })

/-- Claim C4: a living boss's `takeDamage` triggers the hurt-animation flash
iff some threshold T in {1000, 750, 500, 250} satisfies post ≤ T < pre, so a
hit 751→746 flashes, a following 746→744 hit does not, and a multi-threshold
hit flashes only once (a single field assignment). -/
theorem boss_takeDamage_threshold_flash (damage : ℤ) (b : Boss)
    (hb : b.isDead = false) : bossHurtFlashSpec damage b := by
  have hiff : (BossSystem.healthThresholds.any fun threshold =>
      decide (b.health - damage ≤ threshold) &&
      decide (b.health - damage + damage > threshold)) = true ↔
      ∃ t ∈ BossSystem.healthThresholds, b.health - damage ≤ t ∧ b.health > t := by
    simp [List.any_eq_true, sub_add_cancel]
  constructor <;> intro h
  · have hc := hiff.mpr h
    simp only [BossSystem.takeDamage, hb, Bool.false_eq_true, if_false, hc, if_true]
  · have hc : (BossSystem.healthThresholds.any fun threshold =>
        decide (b.health - damage ≤ threshold) &&
        decide (b.health - damage + damage > threshold)) = false := by
      rw [← Bool.not_eq_true, hiff]
      exact h
    simp only [BossSystem.takeDamage, hb, Bool.false_eq_true, if_false, hc,
      Bool.false_eq_true]

/-- A boss brought to exactly 751 health (Scenario E of the spec). -/
def boss751 : Boss :=
  { BossSystem.createBoss 720 with health := 751 }

/-- Witness for C4: the flash spec at the concrete boss of Scenario E — a
5-damage hit from 751 (crossing 750) and the follow-up 2-damage hit from
746 (no threshold crossed). -/
theorem boss_takeDamage_threshold_flash_witness :
    bossHurtFlashSpec 5 boss751 ∧
    bossHurtFlashSpec 2 (BossSystem.takeDamage 5 boss751) :=
  ⟨boss_takeDamage_threshold_flash 5 boss751 rfl,
   boss_takeDamage_threshold_flash 2 (BossSystem.takeDamage 5 boss751) rfl⟩

/-- The boss melee behaviour claimed by C8, over the AI gate
(`checkAttackConditions`), the windup state machine (`updateMeleeAttack`)
and the swing-time damage check (`executeMeleeAttack`). -/
def bossMeleeSpec (playerX : ℚ) (b : Boss) (p : Player) : Prop :=
  ((BossAI.checkAttackConditions playerX b).isAttacking = true →
      b.isAttacking = true ∨ (|playerX - b.x| ≤ b.meleeRange ∧ b.attackCooldown = 0)) ∧
  ((BossAttacks.startMeleeAttack b).attackCooldown = 180 ∧
   (BossAttacks.startMeleeAttack b).isAttacking = true ∧
   (BossAttacks.startMeleeAttack b).meleeAttackTimer = 0) ∧
  (b.isAttacking = true → b.meleeAttackTimer + 1 = 20 →
      (BossState.updateMeleeAttack playerX b p).2 =
        BossAttacks.executeMeleeAttack playerX b p) ∧
  (b.isAttacking = true → b.meleeAttackTimer + 1 ≠ 20 →
      (BossState.updateMeleeAttack playerX b p).2 = p) ∧
  (b.isAttacking = false → BossState.updateMeleeAttack playerX b p = (b, p)) ∧
  (b.isDead = false → |playerX - b.x| ≤ b.meleeRange →
      (BossAttacks.executeMeleeAttack playerX b p).health = p.health - b.attackDamage) ∧
  (b.isDead = false → b.meleeRange < |playerX - b.x| →
      BossAttacks.executeMeleeAttack playerX b p = p) ∧
  ((BossSystem.createBoss 720).meleeRange = 120 ∧
   (BossSystem.createBoss 720).attackDamage = 20)

/-- Claim C8: a boss melee attack starts only within `meleeRange` (120) with
the 180-tick cooldown elapsed, and its 20 damage is applied by a range check
at the fixed damage tick (windup timer = 20) against the player's distance
at that moment, so a player beyond range when the swing lands takes nothing
even if it was in range at attack start. -/
theorem boss_melee_range_checked_at_swing (playerX : ℚ) (b : Boss) (p : Player) :
    bossMeleeSpec playerX b p := by
  refine ⟨?_, ⟨rfl, rfl, rfl⟩, ?_, ?_, ?_, ?_, ?_, rfl, rfl⟩
  · intro h
    by_cases hcool : |playerX - b.x| ≤ b.meleeRange ∧ b.attackCooldown ≤ 0
    · exact Or.inr ⟨hcool.1, Nat.le_zero.mp hcool.2⟩
    · left
      simp only [BossAI.checkAttackConditions, hcool, if_false] at h
      split at h
      · simpa [BossAttacks.startMagicAttack] using h
      · exact h
  · intro ha ht
    simp [BossState.updateMeleeAttack, ha, ht, BossAttacks.executeMeleeAttack]
  · intro ha ht
    simp only [BossState.updateMeleeAttack, ha, if_true, ht, if_false]
    split <;> rfl
  · intro ha
    simp [BossState.updateMeleeAttack, ha]
  · intro hd hr
    simp [BossAttacks.executeMeleeAttack, hd, hr, BossAttacks.damagePlayer]
    split <;> rfl
  · intro hd hr
    simp [BossAttacks.executeMeleeAttack, hd, not_le.mpr hr]

/-- Witness for C8: the melee spec at the freshly created boss, the fresh
player and player x = 100 (distance 0). -/
theorem boss_melee_range_checked_at_swing_witness :
    bossMeleeSpec 100 (BossSystem.createBoss 720) WraithSystem.createPlayerObject :=
  boss_melee_range_checked_at_swing 100 (BossSystem.createBoss 720)
    WraithSystem.createPlayerObject

/-- The camera-update behaviour claimed by C9: boss-room pinning with no
player following, the 60fps-normalised delta clamped at 2, and the
micro-snap after position integration. -/
def cameraUpdateSpec (qpow : ℚ → ℚ → ℚ) (now playerX : ℚ) (c : Camera) : Prop :=
  (CameraSystem.updateCamera qpow now playerX true c = { c with x := 0, velocityX := 0 }) ∧
  ((CameraSystem.updateCamera qpow now playerX false c).deltaTime =
      min ((now - c.lastUpdateTime) / (1667/100)) 2) ∧
  ((CameraSystem.updateCamera qpow now playerX false c).deltaTime ≤ 2) ∧
  (|(CameraSystem.updateCameraMovement qpow (CameraSystem.updateCameraTarget playerX
        (CameraSystem.updateDeltaTime now c))).targetX -
    (CameraSystem.updateCameraMovement qpow (CameraSystem.updateCameraTarget playerX
        (CameraSystem.updateDeltaTime now c))).x| < 1/20 →
      (CameraSystem.updateCamera qpow now playerX false c).x =
        (CameraSystem.updateCameraMovement qpow (CameraSystem.updateCameraTarget playerX
          (CameraSystem.updateDeltaTime now c))).targetX ∧
      (CameraSystem.updateCamera qpow now playerX false c).velocityX = 0)

/-- Claim C9: outside the boss room the 60fps-normalised delta is the
elapsed real time over 16.67 clamped to at most 2, and after position
integration a residual error below 0.05 snaps the camera to its target with
zero velocity; inside the boss room the camera is pinned to x = 0, velocity
0, independently of the player. -/
theorem camera_update_delta_snap_and_pin (qpow : ℚ → ℚ → ℚ) (now playerX : ℚ)
    (c : Camera) : cameraUpdateSpec qpow now playerX c := by
  refine ⟨rfl, ?_, ?_, ?_⟩
  · simp [CameraSystem.updateCamera, CameraSystem.applyMicroSmoothing,
      CameraSystem.updateCameraMovement, CameraSystem.updateCameraTarget,
      CameraSystem.updateDeltaTime]
    split <;> rfl
  · have h : (CameraSystem.updateCamera qpow now playerX false c).deltaTime =
        min ((now - c.lastUpdateTime) / (1667/100)) 2 := by
      simp [CameraSystem.updateCamera, CameraSystem.applyMicroSmoothing,
        CameraSystem.updateCameraMovement, CameraSystem.updateCameraTarget,
        CameraSystem.updateDeltaTime]
      split <;> rfl
    rw [h]
    exact min_le_right _ _
  · intro hsnap
    rw [show ((1:ℚ)/20) = 20⁻¹ by norm_num] at hsnap
    simp [CameraSystem.updateCamera, CameraSystem.applyMicroSmoothing, hsnap]

/-- A constant stand-in for `Math.pow` used to instantiate the camera
theorem at a concrete input. -/
def constPow : ℚ → ℚ → ℚ := fun _ _ => 1

/-- The camera record as initialised by the `CameraSystem` constructor for
the 1280×720 game. -/
def initialCamera : Camera :=
  { x := 0
    y := 0
    width := 1280
    height := 720
    followSpeed := 8/100
    targetX := 0
    velocityX := 0
    acceleration := 12/100
    maxSpeed := 5
    friction := 92/100
    lastUpdateTime := 0
    deltaTime := 0 }

/-- Witness for C9: the camera spec at the initial camera, now = 10 ms and
the player centred at x = 640. -/
theorem camera_update_delta_snap_and_pin_witness :
    cameraUpdateSpec constPow 10 640 initialCamera :=
  camera_update_delta_snap_and_pin constPow 10 640 initialCamera



/-- Overlap test of the melee sweep, abbreviating
`checkHitboxCollision(getWraithHitbox(player), getObjectHitbox(golem))`. -/
def golemPlayerCollision (p : Player) (g : Golem) : Bool :=
  CollisionSystem.checkHitboxCollision (WraithDrawing.getWraithHitbox p)
    (CollisionSystem.getObjectHitboxGolem g)

/-- The active swing window `isGolemAttacking` of the melee sweep. -/
def golemSwingWindow (g : Golem) : Bool :=
  g.isAttacking && decide (g.attackTimer > 0) && decide (g.attackTimer ≤ 5)

theorem golemPlayerStep_hit (p : Player) (g : Golem)
    (hc : golemPlayerCollision p g = true) (hw : golemSwingWindow g = true)
    (hd : g.hasDealtDamage = false) (hg : p.isGrounded = true) :
    CollisionSystem.golemPlayerStep p g =
      (CollisionSystem.damagePlayer 20 p, { g with hasDealtDamage := true }) := by
  have hc' := hc
  have hw' := hw
  simp only [golemPlayerCollision] at hc'
  simp only [golemSwingWindow] at hw'
  unfold CollisionSystem.golemPlayerStep
  dsimp only
  rw [hc', hw', hd, hg]
  simp

theorem golemPlayerStep_latched (p : Player) (g : Golem)
    (hc : golemPlayerCollision p g = true) (hw : golemSwingWindow g = true)
    (hd : g.hasDealtDamage = true) :
    CollisionSystem.golemPlayerStep p g = (p, g) := by
  have hc' := hc
  have hw' := hw
  simp only [golemPlayerCollision] at hc'
  simp only [golemSwingWindow] at hw'
  unfold CollisionSystem.golemPlayerStep
  dsimp only
  rw [hc', hw', hd]
  simp

theorem golemPlayerStep_separated (p : Player) (g : Golem)
    (h : golemPlayerCollision p g = false ∨ golemSwingWindow g = false) :
    CollisionSystem.golemPlayerStep p g = (p, { g with hasDealtDamage := false }) := by
  unfold CollisionSystem.golemPlayerStep
  dsimp only
  rcases h with h | h
  · have h' := h
    simp only [golemPlayerCollision] at h'
    rw [h']
    simp
  · have h' := h
    simp only [golemSwingWindow] at h'
    rw [h']
    simp

theorem golemPlayerStep_no_damage (p : Player) (g : Golem)
    (h : g.hasDealtDamage = true ∨ p.isGrounded = false) :
    (CollisionSystem.golemPlayerStep p g).1 = p := by
  unfold CollisionSystem.golemPlayerStep
  dsimp only
  rcases h with h | h <;> rw [h] <;> simp

/-- The enemy↔player melee sweep behaviour claimed by C6, for one golem of
`checkGolemPlayerCollisions`: damage (-20 health, hurt flag, 30-tick timer)
happens exactly under overlap ∧ active swing window ∧ grounded ∧ clear
latch; a landed hit sets the latch; the latch clears whenever the overlap
or the window fails; and a repeated sweep after a landed hit deals no
further damage. -/
def golemMeleeLatchSpec (p : Player) (g : Golem) : Prop :=
  ((golemPlayerCollision p g && golemSwingWindow g && !g.hasDealtDamage &&
      p.isGrounded) = true →
    (CollisionSystem.golemPlayerStep p g).1.health = p.health - 20 ∧
    (CollisionSystem.golemPlayerStep p g).1.isHurt = true ∧
    (CollisionSystem.golemPlayerStep p g).1.hurtTimer = 30 ∧
    (CollisionSystem.golemPlayerStep p g).2.hasDealtDamage = true) ∧
  ((golemPlayerCollision p g && golemSwingWindow g && !g.hasDealtDamage &&
      p.isGrounded) = false →
    (CollisionSystem.golemPlayerStep p g).1 = p) ∧
  (golemPlayerCollision p g = false ∨ golemSwingWindow g = false →
    (CollisionSystem.golemPlayerStep p g).2.hasDealtDamage = false) ∧
  ((golemPlayerCollision p g && golemSwingWindow g && !g.hasDealtDamage &&
      p.isGrounded) = true →
    (CollisionSystem.golemPlayerStep (CollisionSystem.golemPlayerStep p g).1
       (CollisionSystem.golemPlayerStep p g).2).1 =
      (CollisionSystem.golemPlayerStep p g).1)

/-- Claim C6: a golem damages the player only under hitbox overlap, an
active swing (`isAttacking` with `0 < attackTimer ≤ 5`), a grounded player
and a clear `hasDealtDamage` latch; the hit sets the latch so one swing
deals damage exactly once, and the latch resets whenever the overlap ends
or the golem leaves its active swing window. -/
theorem golem_player_melee_latch (p : Player) (g : Golem) :
    golemMeleeLatchSpec p g := by
  refine ⟨?_, ?_, ?_, ?_⟩
  · intro h
    simp only [Bool.and_eq_true, Bool.not_eq_true'] at h
    obtain ⟨⟨⟨hc, hw⟩, hd⟩, hg⟩ := h
    rw [golemPlayerStep_hit p g hc hw hd hg]
    exact ⟨rfl, rfl, rfl, rfl⟩
  · intro h
    cases hc : golemPlayerCollision p g with
    | false => rw [golemPlayerStep_separated p g (Or.inl hc)]
    | true =>
      cases hw : golemSwingWindow g with
      | false => rw [golemPlayerStep_separated p g (Or.inr hw)]
      | true =>
        cases hd : g.hasDealtDamage with
        | true => exact golemPlayerStep_no_damage p g (Or.inl hd)
        | false =>
          cases hg : p.isGrounded with
          | false => exact golemPlayerStep_no_damage p g (Or.inr hg)
          | true => rw [hc, hw, hd, hg] at h; simp at h
  · intro h
    rw [golemPlayerStep_separated p g h]
  · intro h
    simp only [Bool.and_eq_true, Bool.not_eq_true'] at h
    obtain ⟨⟨⟨hc, hw⟩, hd⟩, hg⟩ := h
    rw [golemPlayerStep_hit p g hc hw hd hg]
    exact golemPlayerStep_no_damage _ _ (Or.inl rfl)

/-- An attacking golem overlapping the fresh player, used to instantiate the
melee-latch spec. -/
def attackingGolem : Golem :=
  { GolemSystem.createGolemData 1 90 false 100 with
      y := 250, isAttacking := true, attackTimer := 3 }

/-- Witness for C6: the melee-latch spec at the fresh player made grounded
and an attacking golem standing on it. -/
theorem golem_player_melee_latch_witness :
    golemMeleeLatchSpec { WraithSystem.createPlayerObject with isGrounded := true }
      attackingGolem :=
  golem_player_melee_latch { WraithSystem.createPlayerObject with isGrounded := true }
    attackingGolem

theorem damageGolemWithUltimate_fields (d K : ℤ) (g : Golem) :
    (SpellCaster.damageGolemWithUltimate d K g).health = g.health - d ∧
    (SpellCaster.damageGolemWithUltimate d K g).lastUltimateHit = K ∧
    (SpellCaster.damageGolemWithUltimate d K g).x = g.x := by
  unfold SpellCaster.damageGolemWithUltimate
  dsimp only
  split <;> exact ⟨rfl, rfl, rfl⟩

theorem hitGolemsList_post (d K : ℤ) (x r : ℚ) (gs : List Golem) :
    ∀ g' ∈ (SpellCaster.hitGolemsList d K x r gs).1,
      ¬(|g'.x - x| ≤ r ∧ g'.lastUltimateHit ≠ K) := by
  induction gs with
  | nil =>
    intro g' h
    simp [SpellCaster.hitGolemsList] at h
  | cons g rest ih =>
    intro g' h
    unfold SpellCaster.hitGolemsList at h
    dsimp only at h
    split at h
    case isTrue hg =>
      rcases List.mem_cons.mp h with h1 | h1
      · subst h1
        intro hcon
        exact hcon.2 ((damageGolemWithUltimate_fields d K g).2.1)
      · exact ih g' h1
    case isFalse hg =>
      rcases List.mem_cons.mp h with h1 | h1
      · subst h1
        exact hg
      · exact ih g' h1

theorem hitGolemsList_all_stamped (d K : ℤ) (x r : ℚ) (gs : List Golem)
    (h : ∀ g ∈ gs, ¬(|g.x - x| ≤ r ∧ g.lastUltimateHit ≠ K)) :
    SpellCaster.hitGolemsList d K x r gs = (gs, []) := by
  induction gs with
  | nil => rfl
  | cons g rest ih =>
    unfold SpellCaster.hitGolemsList
    dsimp only
    rw [ih fun g' hg' => h g' (List.mem_cons_of_mem g hg')]
    rw [if_neg (h g (List.mem_cons_self g rest))]

/-- The hit-once discipline of a single ultimate cast claimed by C3, over
the creation-time AoE application (`hitGolemsWithUltimate`,
`hitBossWithUltimate`) and the per-tick collision resolver branches
(`handleSpellGolemHit` / `handleSpellBossHit`). -/
def ultimateOneShotSpec (d K : ℤ) (x r : ℚ) (room : Bool) (gs : List Golem)
    (b : Boss) (sp : Spell) (score mana : ℤ) (g : Golem) : Prop :=
  ((|g.x - x| ≤ r ∧ g.lastUltimateHit ≠ K) →
      SpellCaster.hitGolemsList d K x r [g] =
        ([SpellCaster.damageGolemWithUltimate d K g],
         [SpellCaster.createGolemLightning d (SpellCaster.damageGolemWithUltimate d K g)]) ∧
      (SpellCaster.damageGolemWithUltimate d K g).health = g.health - d ∧
      (SpellCaster.damageGolemWithUltimate d K g).lastUltimateHit = K) ∧
  (g.lastUltimateHit = K → SpellCaster.hitGolemsList d K x r [g] = ([g], [])) ∧
  (SpellCaster.hitGolemsWithUltimate d K x r room
      ((SpellCaster.hitGolemsWithUltimate d K x r room gs).1) =
    ((SpellCaster.hitGolemsWithUltimate d K x r room gs).1, [])) ∧
  (b.lastUltimateHit = K →
    SpellCaster.hitBossWithUltimate d K room (some b) = (some b, [])) ∧
  (SpellCaster.hitBossWithUltimate d K room
      ((SpellCaster.hitBossWithUltimate d K room (some b)).1) =
    ((SpellCaster.hitBossWithUltimate d K room (some b)).1, [])) ∧
  (sp.isLightning = true → sp.isUltimate = true →
    CollisionSystem.spellGolemHitGolem sp score mana g = (score, mana, g) ∧
    CollisionSystem.spellBossHitBoss sp b = b)

/-- Claim C3: for a fixed ultimate cast id K, each golem and the boss takes
ultimate damage at most once — the damage and `lastUltimateHit = K` stamp
are applied at lightning-creation time only to targets not yet stamped with
K, a second AoE application with the same K is a no-op, and the collision
resolver never applies ultimate damage to golems or boss. -/
theorem ultimate_cast_hits_each_target_once (d K : ℤ) (x r : ℚ) (room : Bool)
    (gs : List Golem) (b : Boss) (sp : Spell) (score mana : ℤ) (g : Golem) :
    ultimateOneShotSpec d K x r room gs b sp score mana g := by
  refine ⟨?_, ?_, ?_, ?_, ?_, ?_⟩
  · intro h
    refine ⟨?_, (damageGolemWithUltimate_fields d K g).1,
      (damageGolemWithUltimate_fields d K g).2.1⟩
    unfold SpellCaster.hitGolemsList
    dsimp only
    rw [if_pos h]
    rfl
  · intro h
    unfold SpellCaster.hitGolemsList
    dsimp only
    rw [if_neg (by intro hcon; exact hcon.2 h)]
    rfl
  · cases room with
    | true => rfl
    | false =>
      unfold SpellCaster.hitGolemsWithUltimate
      simp only [Bool.false_eq_true, if_false]
      exact hitGolemsList_all_stamped d K x r _ (hitGolemsList_post d K x r gs)
  · intro h
    cases room with
    | false => rfl
    | true => simp [SpellCaster.hitBossWithUltimate, h]
  · cases room with
    | false => rfl
    | true =>
      by_cases h : b.lastUltimateHit = K
      · have hinner : SpellCaster.hitBossWithUltimate d K true (some b) = (some b, []) := by
          simp [SpellCaster.hitBossWithUltimate, h]
        rw [hinner]
        exact hinner
      · have hstamp : (SpellCaster.damageBossWithUltimate d K b).lastUltimateHit = K := by
          unfold SpellCaster.damageBossWithUltimate
          dsimp only
          split <;> rfl
        have hinner : SpellCaster.hitBossWithUltimate d K true (some b) =
            (some (SpellCaster.damageBossWithUltimate d K b),
             [SpellCaster.createBossLightning d (SpellCaster.damageBossWithUltimate d K b)]) := by
          simp [SpellCaster.hitBossWithUltimate, h]
        rw [hinner]
        simp [SpellCaster.hitBossWithUltimate, hstamp]
  · intro h1 h2
    constructor
    · unfold CollisionSystem.spellGolemHitGolem
      rw [if_neg (by simp [h1, h2])]
    · unfold CollisionSystem.spellBossHitBoss
      rw [if_neg (by simp [h1, h2])]

/-- Witness for C3: the one-shot spec at cast id 1, damage 100, the fresh
golem at x = 100 (player at 0, range 550), the fresh boss, a golem-lightning
spell record, and empty accumulators. -/
theorem ultimate_cast_hits_each_target_once_witness :
    ultimateOneShotSpec 100 1 0 550 false [GolemSystem.createGolemData 1 90 false 100]
      (BossSystem.createBoss 720)
      (SpellCaster.createGolemLightning 100 (GolemSystem.createGolemData 1 90 false 100))
      0 0 (GolemSystem.createGolemData 1 90 false 100) :=
  ultimate_cast_hits_each_target_once 100 1 0 550 false
    [GolemSystem.createGolemData 1 90 false 100] (BossSystem.createBoss 720)
    (SpellCaster.createGolemLightning 100 (GolemSystem.createGolemData 1 90 false 100))
    0 0 (GolemSystem.createGolemData 1 90 false 100)

theorem rescaleGolem_pos_eq (m : ℚ) (g : Golem) (h : 0 < g.health) :
    GolemSystem.rescaleGolem m g =
      { g with
          health := ⌊((⌊(if g.isElite then (150:ℚ) else 90) * m⌋ : ℤ) : ℚ) *
            ((g.health : ℚ) / (g.maxHealth : ℚ))⌋
          maxHealth := ⌊(if g.isElite then (150:ℚ) else 90) * m⌋ } := by
  unfold GolemSystem.rescaleGolem
  dsimp only
  rw [if_pos h]

/-- The HP-rescaling behaviour claimed by C5: the multiplier rises by 0.25
capped at 2.0; every golem with positive health gets
`newMaxHP = ⌊baseHP·mult⌋` (150 elite, 90 otherwise) and
`newHP = ⌊newMaxHP · oldHP/oldMaxHP⌋`, and its health fraction is preserved
up to strictly less than one part in `newMaxHP` (floor rounding); golems at
health ≤ 0 are untouched. -/
def increaseGolemHPSpec (mult : ℚ) (gs : List Golem) (g : Golem) : Prop :=
  ((GolemSystem.increaseGolemHP mult gs).1 = min (mult + 1/4) 2) ∧
  ((GolemSystem.increaseGolemHP mult gs).2 =
      gs.map (GolemSystem.rescaleGolem (min (mult + 1/4) 2))) ∧
  (g.health ≤ 0 → GolemSystem.rescaleGolem (min (mult + 1/4) 2) g = g) ∧
  (0 < g.health →
    (GolemSystem.rescaleGolem (min (mult + 1/4) 2) g).maxHealth =
      ⌊(if g.isElite then (150:ℚ) else 90) * min (mult + 1/4) 2⌋ ∧
    (GolemSystem.rescaleGolem (min (mult + 1/4) 2) g).health =
      ⌊((⌊(if g.isElite then (150:ℚ) else 90) * min (mult + 1/4) 2⌋ : ℤ) : ℚ) *
        ((g.health : ℚ) / (g.maxHealth : ℚ))⌋) ∧
  (0 < g.health →
    |(((GolemSystem.rescaleGolem (min (mult + 1/4) 2) g).health : ℚ) /
        ((GolemSystem.rescaleGolem (min (mult + 1/4) 2) g).maxHealth : ℚ)) -
      ((g.health : ℚ) / (g.maxHealth : ℚ))| <
      1 / ((GolemSystem.rescaleGolem (min (mult + 1/4) 2) g).maxHealth : ℚ))

/-- Claim C5: `increaseGolemHP` raises the global multiplier by 0.25 capped
at 2.0 and, for every living golem, sets `newMaxHP = ⌊baseHP·mult⌋` and
`newHP = ⌊newMaxHP·oldHP/oldMaxHP⌋`, preserving the current HP ratio up to
floor rounding regardless of the multiplier; golems with health ≤ 0 are
unchanged. -/
theorem golem_hp_scaling_preserves_ratio (mult : ℚ) (gs : List Golem) (g : Golem)
    (hm : 1 ≤ mult) : increaseGolemHPSpec mult gs g := by
  have hm5 : (5/4 : ℚ) ≤ min (mult + 1/4) 2 := le_min (by linarith) (by norm_num)
  have hM : (0:ℤ) < ⌊(if g.isElite then (150:ℚ) else 90) * min (mult + 1/4) 2⌋ := by
    rw [Int.lt_iff_add_one_le, zero_add, Int.le_floor]
    have hbase : (90:ℚ) ≤ if g.isElite then (150:ℚ) else 90 := by split <;> norm_num
    push_cast
    nlinarith
  refine ⟨rfl, rfl, ?_, ?_, ?_⟩
  · intro h
    unfold GolemSystem.rescaleGolem
    dsimp only
    rw [if_neg (not_lt.mpr h)]
  · intro h
    rw [rescaleGolem_pos_eq (min (mult + 1/4) 2) g h]
    exact ⟨rfl, rfl⟩
  · intro h
    rw [rescaleGolem_pos_eq (min (mult + 1/4) 2) g h]
    dsimp only
    have hMq : (0:ℚ) < ((⌊(if g.isElite then (150:ℚ) else 90) * min (mult + 1/4) 2⌋ : ℤ) : ℚ) := by
      exact_mod_cast hM
    have hfl1 :
        ((⌊((⌊(if g.isElite then (150:ℚ) else 90) * min (mult + 1/4) 2⌋ : ℤ) : ℚ) *
            ((g.health : ℚ) / (g.maxHealth : ℚ))⌋ : ℚ)) ≤
          ((⌊(if g.isElite then (150:ℚ) else 90) * min (mult + 1/4) 2⌋ : ℤ) : ℚ) *
            ((g.health : ℚ) / (g.maxHealth : ℚ)) := Int.floor_le _
    have hfl2 :
        ((⌊(if g.isElite then (150:ℚ) else 90) * min (mult + 1/4) 2⌋ : ℤ) : ℚ) *
            ((g.health : ℚ) / (g.maxHealth : ℚ)) - 1 <
          ((⌊((⌊(if g.isElite then (150:ℚ) else 90) * min (mult + 1/4) 2⌋ : ℤ) : ℚ) *
            ((g.health : ℚ) / (g.maxHealth : ℚ))⌋ : ℚ)) := Int.sub_one_lt_floor _
    rw [abs_sub_lt_iff]
    constructor
    · have hle :
          ((⌊((⌊(if g.isElite then (150:ℚ) else 90) * min (mult + 1/4) 2⌋ : ℤ) : ℚ) *
              ((g.health : ℚ) / (g.maxHealth : ℚ))⌋ : ℚ)) /
            ((⌊(if g.isElite then (150:ℚ) else 90) * min (mult + 1/4) 2⌋ : ℤ) : ℚ) ≤
            (g.health : ℚ) / (g.maxHealth : ℚ) := by
        rw [div_le_iff₀ hMq]
        nlinarith
      have hpos : (0:ℚ) <
          1 / ((⌊(if g.isElite then (150:ℚ) else 90) * min (mult + 1/4) 2⌋ : ℤ) : ℚ) := by
        positivity
      linarith
    · rw [sub_lt_iff_lt_add, div_add_div_same, lt_div_iff₀ hMq]
      nlinarith

/-- A golem at 45 of 90 health (exactly 50%), instantiating the scaling
spec. -/
def golem45 : Golem :=
  { GolemSystem.createGolemData 1 90 false 0 with health := 45 }

/-- Witness for C5: the scaling spec at multiplier 1 and the 50%-health
golem. -/
theorem golem_hp_scaling_preserves_ratio_witness :
    (1:ℚ) ≤ 1 ∧ increaseGolemHPSpec 1 [golem45] golem45 :=
  ⟨le_refl 1, golem_hp_scaling_preserves_ratio 1 [golem45] golem45 (le_refl 1)⟩

theorem hitGolemsList_length (d K : ℤ) (x r : ℚ) (gs : List Golem) :
    (SpellCaster.hitGolemsList d K x r gs).1.length = gs.length := by
  induction gs with
  | nil => rfl
  | cons g rest ih =>
    unfold SpellCaster.hitGolemsList
    dsimp only
    split <;> simp [ih]

theorem hitGolemsWithUltimate_length (d K : ℤ) (x r : ℚ) (room : Bool)
    (gs : List Golem) :
    (SpellCaster.hitGolemsWithUltimate d K x r room gs).1.length = gs.length := by
  cases room with
  | true => rfl
  | false => exact hitGolemsList_length d K x r gs

/-- The completion effects of an ultimate cast claimed by C7, over
`finishUltimateCasting`. -/
def finishUltimateCastingSpec (draws : ℕ → ℚ × Bool) (s : GameState) : Prop :=
  (WraithAnimation.finishUltimateCasting draws s).player.mana = 0 ∧
  (WraithAnimation.finishUltimateCasting draws s).player.ultimateReady = false ∧
  (WraithAnimation.finishUltimateCasting draws s).player.sSkillDamage =
    s.player.sSkillDamage + 15 ∧
  (WraithAnimation.finishUltimateCasting draws s).player.ultimateCastCount =
    s.player.ultimateCastCount + 1 ∧
  (WraithAnimation.finishUltimateCasting draws s).player.ultimateDamage =
    (if (s.player.ultimateCastCount + 1) % 5 = 0 then s.player.ultimateDamage + 100
     else s.player.ultimateDamage) ∧
  (WraithAnimation.finishUltimateCasting draws s).golemSpawnInterval =
    WraithAnimation.updateSpawnInterval s.golemSpawnInterval ∧
  (s.golemSpawnInterval = 2000 →
    (WraithAnimation.finishUltimateCasting draws s).golemSpawnInterval = 1750) ∧
  (s.golemSpawnInterval = 1750 →
    (WraithAnimation.finishUltimateCasting draws s).golemSpawnInterval = 1500) ∧
  (s.golemSpawnInterval = 1500 →
    (WraithAnimation.finishUltimateCasting draws s).golemSpawnInterval = 1500) ∧
  1500 ≤ (WraithAnimation.finishUltimateCasting draws s).golemSpawnInterval ∧
  (WraithAnimation.finishUltimateCasting draws s).golems.length = s.golems.length + 3 ∧
  (WraithAnimation.finishUltimateCasting draws s).golemHPMultiplier =
    min (s.golemHPMultiplier + 1/4) 2 ∧
  (WraithAnimation.finishUltimateCasting draws s).ultimateCastId = s.ultimateCastId + 1 ∧
  WraithSystem.createPlayerObject.ultimateCastingDuration = 6 ∧
  (WraithAnimation.finishUltimateCasting draws s).player.isCastingUltimate = false

/-- Claim C7: every completed ultimate cast (of fixed 6-tick duration)
resets mana to 0 and `ultimateReady`, adds 15 to `sSkillDamage`, on every
5th cast adds 100 to `ultimateDamage`, ratchets the golem spawn interval
2000→1750→1500 with floor 1500, spawns exactly three bonus golems, raises
the golem HP multiplier (capped), and issues a fresh ultimate cast id. -/
theorem finish_ultimate_cast_effects (draws : ℕ → ℚ × Bool) (s : GameState) :
    finishUltimateCastingSpec draws s := by
  have hlen : (WraithAnimation.finishUltimateCasting draws s).golems.length =
      s.golems.length + 3 := by
    unfold WraithAnimation.finishUltimateCasting SpellCaster.castUltimateSpell
    dsimp only
    rw [hitGolemsWithUltimate_length]
    unfold GolemSystem.increaseGolemHP GolemSystem.spawnBonusGolems
    dsimp only
    split <;> simp
  have hint : (WraithAnimation.finishUltimateCasting draws s).golemSpawnInterval =
      WraithAnimation.updateSpawnInterval s.golemSpawnInterval := by
    unfold WraithAnimation.finishUltimateCasting SpellCaster.castUltimateSpell
    dsimp only
  refine ⟨?_, ?_, ?_, ?_, ?_, hint, ?_, ?_, ?_, ?_, hlen, ?_, ?_, rfl, ?_⟩
  · unfold WraithAnimation.finishUltimateCasting SpellCaster.castUltimateSpell
    dsimp only
    split <;> rfl
  · unfold WraithAnimation.finishUltimateCasting SpellCaster.castUltimateSpell
    dsimp only
    split <;> rfl
  · unfold WraithAnimation.finishUltimateCasting SpellCaster.castUltimateSpell
    dsimp only
    split <;> rfl
  · unfold WraithAnimation.finishUltimateCasting SpellCaster.castUltimateSpell
    dsimp only
    split <;> rfl
  · unfold WraithAnimation.finishUltimateCasting SpellCaster.castUltimateSpell
    dsimp only
    split <;> rfl
  · intro h
    rw [hint, h]
    decide
  · intro h
    rw [hint, h]
    decide
  · intro h
    rw [hint, h]
    decide
  · rw [hint]
    unfold WraithAnimation.updateSpawnInterval
    split
    · norm_num
    · split <;> norm_num
  · unfold WraithAnimation.finishUltimateCasting SpellCaster.castUltimateSpell
      GolemSystem.increaseGolemHP
    dsimp only
  · unfold WraithAnimation.finishUltimateCasting SpellCaster.castUltimateSpell
    dsimp only
  · unfold WraithAnimation.finishUltimateCasting SpellCaster.castUltimateSpell
    dsimp only

/-- A draw function for the bonus-golem spawns (random draw 0, always the
right side). -/
def zeroDraws : ℕ → ℚ × Bool := fun _ => (0, false)

/-- The fresh game-session state: new player, no golems, the initial spawn
interval and multiplier, no boss, score 0, cast id 0, no spells. -/
def initialGameState : GameState :=
  { player := WraithSystem.createPlayerObject
    golems := []
    golemSpawnInterval := 2000
    golemHPMultiplier := 1
    boss := none
    inBossRoom := false
    score := 0
    ultimateCastId := 0
    spells := [] }

/-- Witness for C7: the completion-effects spec at the fresh game state. -/
theorem finish_ultimate_cast_effects_witness :
    finishUltimateCastingSpec zeroDraws initialGameState :=
  finish_ultimate_cast_effects zeroDraws initialGameState

theorem golemTick_singleton (px : ℚ) (s : ℤ) (g : Golem) :
    GameUpdater.golemTick px (s, [g]) =
      ((GolemSystem.updateGolemStep px s g).1,
       if (GolemSystem.updateGolemStep px s g).2.health = -1 then []
       else [(GolemSystem.updateGolemStep px s g).2]) := by
  unfold GameUpdater.golemTick GolemSystem.updateGolems GolemSystem.updateGolemsList
  dsimp only
  by_cases h : (GolemSystem.updateGolemStep px s g).2.health = -1
  · rw [if_pos h]
    simp [GolemSystem.updateGolemsList, List.filter, h]
  · rw [if_neg h]
    simp [GolemSystem.updateGolemsList, List.filter, h]

theorem updateGolemStep_dying (px : ℚ) (s : ℤ) (g : Golem) (h : g.isDying = true) :
    GolemSystem.updateGolemStep px s g =
      (s, GolemSystem.updateDyingGolem (GolemSystem.updateGolemTimers g)) := by
  unfold GolemSystem.updateGolemStep
  dsimp only
  have hd : (GolemSystem.handleGolemDeath s (GolemSystem.updateGolemTimers g)) =
      (s, GolemSystem.updateGolemTimers g) := by
    unfold GolemSystem.handleGolemDeath GolemSystem.updateGolemTimers
    dsimp only
    rw [if_neg (by simp [h])]
  rw [hd]
  dsimp only
  rw [if_pos (by simp [GolemSystem.updateGolemTimers, h])]

/-- The state of a golem `m` half-frames into its death playback, reached
after `2m+1` update passes from death onset (odd passes leave
`frameCount = 0.5`). -/
def dyingGolemAt (g : Golem) (m : ℕ) : Golem :=
  { g with hurtTimer := g.hurtTimer - (2*m+1)
           attackTimer := g.attackTimer - (2*m+1)
           attackCooldown := g.attackCooldown - (2*m+1)
           isDying := true
           currentAnimation := GolemAnim.dying
           dyingFrame := m
           frameCount := 1/2 }

/-- The state of a dying golem after an even pass: `frameCount` back at 0,
`dyingFrame` just advanced to `m+1`. -/
def dyingGolemMid (g : Golem) (m : ℕ) : Golem :=
  { g with hurtTimer := g.hurtTimer - (2*m+2)
           attackTimer := g.attackTimer - (2*m+2)
           attackCooldown := g.attackCooldown - (2*m+2)
           isDying := true
           currentAnimation := GolemAnim.dying
           dyingFrame := m + 1
           frameCount := 0 }

theorem updateGolemStep_dyingAt (px : ℚ) (s : ℤ) (g : Golem) (m : ℕ) (hm : m ≤ 13) :
    GolemSystem.updateGolemStep px s (dyingGolemAt g m) = (s, dyingGolemMid g m) := by
  rw [updateGolemStep_dying px s (dyingGolemAt g m) rfl]
  unfold GolemSystem.updateGolemTimers GolemSystem.updateDyingGolem dyingGolemAt dyingGolemMid
  dsimp only
  split
  case isTrue hfc =>
    split
    case isTrue hdf => exact absurd hdf (by omega)
    case isFalse hdf =>
      simp only [Prod.mk.injEq, Golem.mk.injEq]
      repeat' apply And.intro
      all_goals first | rfl | trivial
  case isFalse hfc => exact absurd (by norm_num) hfc

theorem updateGolemStep_dyingMid (px : ℚ) (s : ℤ) (g : Golem) (m : ℕ) :
    GolemSystem.updateGolemStep px s (dyingGolemMid g m) = (s, dyingGolemAt g (m + 1)) := by
  rw [updateGolemStep_dying px s (dyingGolemMid g m) rfl]
  unfold GolemSystem.updateGolemTimers GolemSystem.updateDyingGolem dyingGolemMid dyingGolemAt
  dsimp only
  split
  case isTrue hfc => exact absurd hfc (by norm_num)
  case isFalse hfc =>
    simp only [Prod.mk.injEq, Golem.mk.injEq]
    repeat' apply And.intro
    all_goals first | rfl | trivial | omega | norm_num

theorem updateGolemStep_onset (px : ℚ) (s : ℤ) (g : Golem) (h0 : g.health ≤ 0)
    (h1 : g.isDying = false) (hfc : g.frameCount = 0) :
    GolemSystem.updateGolemStep px s g = (s + 100, dyingGolemAt g 0) := by
  unfold GolemSystem.updateGolemStep GolemSystem.handleGolemDeath
    GolemSystem.updateGolemTimers GolemSystem.updateDyingGolem dyingGolemAt
  dsimp only
  rw [if_pos (show g.health ≤ 0 ∧ g.isDying = false from ⟨h0, h1⟩)]
  rw [if_pos (show true = true from rfl), hfc]
  rw [if_neg (by norm_num)]
  simp only [Prod.mk.injEq, Golem.mk.injEq]
  repeat' apply And.intro
  all_goals first | rfl | trivial | norm_num

theorem golemTick_dyingAt14 (px : ℚ) (s : ℤ) (g : Golem) :
    GameUpdater.golemTick px (s, [dyingGolemAt g 14]) = (s, []) := by
  rw [golemTick_singleton, updateGolemStep_dying px s (dyingGolemAt g 14) rfl]
  have hh : (GolemSystem.updateDyingGolem
      (GolemSystem.updateGolemTimers (dyingGolemAt g 14))).health = -1 := by
    unfold GolemSystem.updateGolemTimers GolemSystem.updateDyingGolem dyingGolemAt
    dsimp only
    rw [if_pos (by norm_num)]
    rw [if_pos (by omega)]
  simp [hh]

theorem dying_run (px : ℚ) (s : ℤ) (g : Golem) (h0 : g.health ≤ 0)
    (hneg : g.health ≠ -1) (h1 : g.isDying = false) (hfc : g.frameCount = 0) :
    ∀ m : ℕ, m ≤ 14 →
      (GameUpdater.golemTick px)^[2*m+1] (s, [g]) = (s + 100, [dyingGolemAt g m]) := by
  intro m
  induction m with
  | zero =>
    intro _
    show (GameUpdater.golemTick px)^[1] (s, [g]) = _
    rw [Function.iterate_one, golemTick_singleton, updateGolemStep_onset px s g h0 h1 hfc]
    dsimp only
    rw [if_neg (show ¬((dyingGolemAt g 0).health = -1) from hneg)]
  | succ m ih =>
    intro hm
    have h2 : 2*(m+1)+1 = 2 + (2*m+1) := by ring
    rw [h2, Function.iterate_add_apply, ih (by omega)]
    show GameUpdater.golemTick px ((GameUpdater.golemTick px)^[1]
      (s + 100, [dyingGolemAt g m])) = _
    rw [Function.iterate_one]
    rw [golemTick_singleton, updateGolemStep_dyingAt px (s+100) g m (by omega)]
    dsimp only
    rw [if_neg (show ¬((dyingGolemMid g m).health = -1) from hneg)]
    rw [golemTick_singleton, updateGolemStep_dyingMid px (s+100) g m]
    dsimp only
    rw [if_neg (show ¬((dyingGolemAt g (m+1)).health = -1) from hneg)]

/-- The golem death sequence claimed by C1 (amended on removal timing): the
pass that first sees `health ≤ 0` awards +100 and flips the golem to the
dying animation; `frameCount` then advances 0.5 per pass, so after `2m+1`
passes `dyingFrame = m` (still live, health untouched); and on the 30th
pass `dyingFrame` pins at 14, `health` is set to the `-1` sentinel and the
golem is dropped from the live list at the end of that same
`updateGolems` pass. -/
def golemDeathSpec (px : ℚ) (s : ℤ) (g : Golem) : Prop :=
  ((GameUpdater.golemTick px (s, [g])).1 = s + 100 ∧
   (GameUpdater.golemTick px (s, [g])).2 = [dyingGolemAt g 0] ∧
   (dyingGolemAt g 0).isDying = true ∧
   (dyingGolemAt g 0).currentAnimation = GolemAnim.dying ∧
   (dyingGolemAt g 0).health = g.health) ∧
  (∀ m : ℕ, m ≤ 14 →
    (GameUpdater.golemTick px)^[2*m+1] (s, [g]) = (s + 100, [dyingGolemAt g m]) ∧
    (dyingGolemAt g m).dyingFrame = m ∧ (dyingGolemAt g m).health = g.health) ∧
  ((GameUpdater.golemTick px)^[30] (s, [g]) = (s + 100, []))

/-- Claim C1 (amended): the update that first sets `isDying` awards +100 and
switches to the dying animation; the playback advances 0.5 frame-counts per
tick until `dyingFrame` reaches 14 about 30 ticks after onset, at which
point `health` is set to -1 — and the golem is removed from the live list
at the end of that same update pass, not the next one. -/
theorem golem_death_sequence (px : ℚ) (s : ℤ) (g : Golem) (h0 : g.health ≤ 0)
    (hneg : g.health ≠ -1) (h1 : g.isDying = false) (hfc : g.frameCount = 0) :
    golemDeathSpec px s g := by
  have hrun := dying_run px s g h0 hneg h1 hfc
  refine ⟨?_, ?_, ?_⟩
  · have h01 := hrun 0 (by omega)
    rw [show (2*0+1 : ℕ) = 1 from rfl, Function.iterate_one] at h01
    rw [h01]
    exact ⟨rfl, rfl, rfl, rfl, rfl⟩
  · intro m hm
    exact ⟨hrun m hm, rfl, rfl⟩
  · rw [show (30:ℕ) = (2*14+1)+1 from rfl, Function.iterate_succ_apply',
      hrun 14 (by omega), golemTick_dyingAt14]

/-- The Scenario-B golem: a fresh normal golem brought to exactly 0 health. -/
def scenarioGolem : Golem :=
  { GolemSystem.createGolemData 1 90 false 0 with health := 0 }

/-- Witness for C1: the death-sequence spec at the concrete Scenario-B
golem. -/
theorem golem_death_sequence_witness : golemDeathSpec 0 0 scenarioGolem :=
  golem_death_sequence 0 0 scenarioGolem (by decide) (by decide) rfl rfl

theorem golemTick_nil (px : ℚ) (s : ℤ) :
    GameUpdater.golemTick px (s, []) = (s, []) := rfl

/-- Counterexample to C1 as stated: for the Scenario-B golem there is no
update pass after which the golem sits in the live list at the `-1`
sentinel — it is still alive at health 0 (dyingFrame 14) after pass 29 and
it is gone within pass 30 itself (the pass that sets health to -1), so
"the next update pass removes it" is false. -/
theorem golem_death_removal_same_pass_counterexample :
    ((GameUpdater.golemTick 0)^[29] (0, [scenarioGolem])).2 =
      [dyingGolemAt scenarioGolem 14] ∧
    (dyingGolemAt scenarioGolem 14).health = 0 ∧
    (dyingGolemAt scenarioGolem 14).dyingFrame = 14 ∧
    (GameUpdater.golemTick 0)^[30] (0, [scenarioGolem]) = (100, []) := by
  have hrun := dying_run 0 0 scenarioGolem (by decide) (by decide) rfl rfl
  have h29 := hrun 14 (by omega)
  rw [show (2*14+1 : ℕ) = 29 from rfl] at h29
  refine ⟨by rw [h29], rfl, rfl, ?_⟩
  rw [show (30:ℕ) = 29+1 from rfl, Function.iterate_succ_apply', h29,
    golemTick_dyingAt14]
  norm_num

theorem updateScoreAndCleanup_eq (s : ℤ) (gs : List Golem) :
    GameUpdater.updateScoreAndCleanup s gs =
      (s + 100 * (gs.countP fun g => g.health = -1),
       gs.filter fun g => g.health ≠ -1) := by
  induction gs with
  | nil => simp [GameUpdater.updateScoreAndCleanup]
  | cons g rest ih =>
    unfold GameUpdater.updateScoreAndCleanup
    unfold GameUpdater.updateScoreAndCleanup at ih
    by_cases h : g.health = -1 <;>
      · simp [List.countP_cons, List.filter_cons, h, ih]
        try ring

theorem updateGolems_no_sentinel (px : ℚ) (s : ℤ) (gs : List Golem) :
    ∀ g' ∈ (GolemSystem.updateGolems px s gs).2, g'.health ≠ -1 := by
  intro g' h
  unfold GolemSystem.updateGolems at h
  dsimp only at h
  have := List.mem_filter.mp h
  simpa using this.2

theorem updateScoreAndCleanup_noop (s : ℤ) (gs : List Golem)
    (h : ∀ g ∈ gs, g.health ≠ -1) :
    GameUpdater.updateScoreAndCleanup s gs = (s, gs) := by
  induction gs with
  | nil => rfl
  | cons g rest ih =>
    unfold GameUpdater.updateScoreAndCleanup
    unfold GameUpdater.updateScoreAndCleanup at ih
    dsimp only [List.foldr]
    rw [ih fun g' hg' => h g' (List.mem_cons_of_mem g hg')]
    rw [if_neg (h g (List.mem_cons_self g rest))]

theorem mainTick_eq_golemTick (px : ℚ) (st : ℤ × List Golem) :
    GameUpdater.mainTick px st = GameUpdater.golemTick px st := by
  unfold GameUpdater.mainTick GameUpdater.golemTick
  dsimp only
  exact updateScoreAndCleanup_noop _ _ (updateGolems_no_sentinel px st.1 st.2)

theorem mainTick_iterate_eq (px : ℚ) (k : ℕ) (st : ℤ × List Golem) :
    (GameUpdater.mainTick px)^[k] st = (GameUpdater.golemTick px)^[k] st := by
  induction k generalizing st with
  | zero => rfl
  | succ k ih =>
    rw [Function.iterate_succ_apply, Function.iterate_succ_apply,
      mainTick_eq_golemTick, ih]

/-- The cleanup-pass behaviour claimed by C2 (amended): the cleanup does
award +100 per golem found at the `-1` sentinel and removes it, but
`updateGolems` filters out every sentinel golem at the end of its own pass,
so the cleanup run right after it finds none and the composed tick equals
the golem update alone — no golem death is awarded twice. -/
def cleanupSpec (px : ℚ) (s : ℤ) (gs : List Golem) : Prop :=
  (GameUpdater.updateScoreAndCleanup s gs =
    (s + 100 * (gs.countP fun g => g.health = -1),
     gs.filter fun g => g.health ≠ -1)) ∧
  (∀ g' ∈ (GolemSystem.updateGolems px s gs).2, g'.health ≠ -1) ∧
  (GameUpdater.mainTick px (s, gs) = GameUpdater.golemTick px (s, gs))

/-- Claim C2 (amended): `updateScoreAndCleanup` adds +100 for every golem at
the -1 sentinel and drops it from the live list; however, golems that reach
-1 through the dying animation are removed by `updateGolems` within the
same tick, before the cleanup runs, so the cleanup award never combines
with the +100 issued when `isDying` was first set. -/
theorem cleanup_awards_only_leftover_sentinels (px : ℚ) (s : ℤ) (gs : List Golem) :
    cleanupSpec px s gs :=
  ⟨updateScoreAndCleanup_eq s gs, updateGolems_no_sentinel px s gs,
   mainTick_eq_golemTick px (s, gs)⟩

/-- Counterexample to C2 as stated: running the composed main-loop tick
(golem update then cleanup) through the Scenario-B golem's whole death, the
score rises by exactly 100 — once, at `isDying` onset — and never reaches
200; the claimed second +100 from the cleanup pass never happens. -/
theorem cleanup_no_double_award_counterexample :
    ((GameUpdater.mainTick 0)^[1] (0, [scenarioGolem])).1 = 100 ∧
    (GameUpdater.mainTick 0)^[31] (0, [scenarioGolem]) = (100, []) := by
  have hrun := dying_run 0 0 scenarioGolem (by decide) (by decide) rfl rfl
  constructor
  · rw [mainTick_iterate_eq]
    have h1 := hrun 0 (by omega)
    rw [show (2*0+1 : ℕ) = 1 from rfl] at h1
    rw [h1]
    norm_num
  · rw [mainTick_iterate_eq]
    have h29 := hrun 14 (by omega)
    rw [show (2*14+1 : ℕ) = 29 from rfl] at h29
    rw [show (31:ℕ) = (29+1)+1 from rfl, Function.iterate_succ_apply',
      Function.iterate_succ_apply', h29, golemTick_dyingAt14, golemTick_nil]
    norm_num
